import Mathlib

/-!
Shallow embedding of the myFlix movie API user/favorites routes
(src/unnamed/part_000, src/index.js): the users collection, the mongoose
single-document operations the handlers invoke (`findOne`,
`findOneAndUpdate` with `$push`/`$pull`/`$set`, `findOneAndRemove`), the
express-validator chain shared by POST /users and PUT /users/:Username,
and the route handlers themselves as pure functions from a store and a
request to the updated store and the HTTP response.
-/

namespace MovieApi

/-- A stored user document (the `users` collection schema: Username,
Password, Email, Birthday, FavoriteMovies array of movie identifiers). -/
structure User where
  Username : String
  Password : String
  Email : String
  Birthday : Option String
  FavoriteMovies : List String
deriving Repr, DecidableEq

/-- The `users` collection, in natural (insertion) order. -/
abbrev Store := List User

/-- One element of express-validator's `errors.array()`: the offending
field and the message attached to the failed check. -/
structure FieldError where
  param : String
  msg : String
deriving Repr, DecidableEq

/-- The body of an HTTP response as the handlers build it: `res.json`
of a user document, `res.json(null)` (mongoose returned no document),
`res.send` of a text, or the 422 `{ errors: errors.array() }` payload. -/
inductive ResBody where
  | jsonUser : User → ResBody
  | jsonNull : ResBody
  | text : String → ResBody
  | jsonErrors : List FieldError → ResBody
deriving Repr, DecidableEq

/-- An HTTP response: status code and body. `res.json(x)` with no
explicit status is status 200. -/
structure Response where
  status : Nat
  body : ResBody
deriving Repr, DecidableEq

/-- Request data reaching the favorites handlers: the `:Username` and
`:MovieID` path parameters, and `req.user.Username`, the identity the
passport JWT auth guard resolved from the presented token. -/
structure FavRequest where
  pathUsername : String
  pathMovieID : String
  tokenUsername : String
deriving Repr, DecidableEq

/-- The JSON body `{Username, Password, Email, Birthday}` expected by
POST /users and PUT /users/:Username. -/
structure UserBody where
  Username : String
  Password : String
  Email : String
  Birthday : Option String
deriving Repr, DecidableEq

/-- `Users.findOne({ Username: uname })`: first document whose
Username field equals `uname`, in collection order. -/
def findOneUser (store : Store) (uname : String) : Option User :=
  store.find? (fun u => u.Username == uname)

/-- `Users.findOneAndUpdate({ Username: uname }, update, { new: true })`:
applies `f` to the first matching document and returns the updated
store together with the post-update document (`new: true`); when no
document matches, the store is unchanged and the result is `none`. -/
def findOneAndUpdate (store : Store) (uname : String) (f : User → User) :
    Store × Option User :=
  match store with
  | [] => ([], none)
  | u :: rest =>
    if u.Username == uname then
      (f u :: rest, some (f u))
    else
      let r := findOneAndUpdate rest uname f
      (u :: r.1, r.2)

/-- `Users.findOneAndRemove({ Username: uname })`: removes the first
matching document and returns it; `none` when no document matches. -/
def findOneAndRemove (store : Store) (uname : String) : Store × Option User :=
  match store with
  | [] => ([], none)
  | u :: rest =>
    if u.Username == uname then (rest, some u)
    else
      let r := findOneAndRemove rest uname
      (u :: r.1, r.2)

/-- The `$push: { FavoriteMovies: movieId }` update of the favorites-add
handler (part_000 line 282): unconditionally appends to the array. -/
def pushFavorite (movieId : String) (u : User) : User :=
  { u with FavoriteMovies := u.FavoriteMovies ++ [movieId] }

/-- The `$pull: { FavoriteMovies: movieId }` update of the favorites-remove
handler (part_000 line 327): removes every matching element. -/
def pullFavorite (movieId : String) (u : User) : User :=
  { u with FavoriteMovies := u.FavoriteMovies.filter (fun m => m != movieId) }

/-- The `$set` of PUT /users/:Username (part_000 lines 246-251): writes
Username, Password, Email and Birthday from the request body. The source
writes `req.body.Password` itself here, not the hash it computed. -/
def setUserFields (b : UserBody) (u : User) : User :=
  { u with Username := b.Username, Password := b.Password,
           Email := b.Email, Birthday := b.Birthday }

/-- Modelled from the spec: `Users.hashPassword` is defined in models.js,
which is not under src/; the spec describes it as a salted one-way
(bcrypt) hash. Modelled as an injective tagging function whose output is
never the raw input (bcrypt digests carry the `$2b$...` prefix). -/
def hashPassword (raw : String) : String :=
  "$2b$10$" ++ raw

/-- One express-validator check: an empty contribution to
`errors.array()` when the check passes, one entry when it fails. -/
def checkField (ok : Bool) (param msg : String) : List FieldError :=
  if ok then [] else [⟨param, msg⟩]

/-- The validation chain shared verbatim by POST /users (part_000 lines
167-175) and PUT /users/:Username (lines 226-234): Username length at
least 5, Username alphanumeric (validator's isAlphanumeric: nonempty and
all alphanumeric), Password nonempty, Email valid. The email grammar is
the validation library's, treated as an external parameter
`isEmailValid`. `errors.array()` lists every failed check, in chain
order. -/
def validateUserBody (isEmailValid : String → Bool) (b : UserBody) :
    List FieldError :=
  checkField (decide (5 ≤ b.Username.length)) "Username" "Username is required"
  ++ checkField (!b.Username.isEmpty && b.Username.data.all Char.isAlphanum)
      "Username" "Username contains non alphanumeric characters - not allowed."
  ++ checkField (!b.Password.isEmpty) "Password" "Password is required"
  ++ checkField (isEmailValid b.Email) "Email" "Email does not appear to be valid"

/-- The document `Users.create` builds for POST /users (part_000 lines
190-195): Password is the computed hash; FavoriteMovies defaults empty. -/
def createdUser (b : UserBody) : User :=
  { Username := b.Username, Password := hashPassword b.Password,
    Email := b.Email, Birthday := b.Birthday, FavoriteMovies := [] }

/-- POST /users (part_000 lines 160-210): on validation errors responds
422 with `errors.array()`; on an existing username responds 400; else
creates the user with the hashed password and responds 201 with the
created document. -/
def addUser (isEmailValid : String → Bool) (store : Store) (b : UserBody) :
    Store × Response :=
  let errors := validateUserBody isEmailValid b
  if errors.isEmpty then
    match findOneUser store b.Username with
    | some _ => (store, ⟨400, ResBody.text (b.Username ++ " already exists")⟩)
    | none => (store ++ [createdUser b], ⟨201, ResBody.jsonUser (createdUser b)⟩)
  else
    (store, ⟨422, ResBody.jsonErrors errors⟩)

/-- PUT /users/:Username (part_000 lines 223-264): on validation errors
responds 422; else computes `hashedPassword` (which the `$set` then does
not use — it writes the raw `req.body.Password`), updates the first
document matching the `:Username` path parameter, and responds
`res.json(updatedUser)`: 200 with the updated document, or 200 with
JSON null when no document matched. -/
def updateUser (isEmailValid : String → Bool) (store : Store)
    (pathUsername : String) (b : UserBody) : Store × Response :=
  let errors := validateUserBody isEmailValid b
  if errors.isEmpty then
    let hashedPassword := hashPassword b.Password
    let r := findOneAndUpdate store pathUsername (setUserFields b)
    match r.2 with
    | some u => (r.1, ⟨200, ResBody.jsonUser u⟩)
    | none => (r.1, ⟨200, ResBody.jsonNull⟩)
  else
    (store, ⟨422, ResBody.jsonErrors errors⟩)

/-- POST /users/:Username/movies/:MovieID (part_000 lines 275-295):
selects the target document by `req.user.Username` — the token's
resolved identity, not the `:Username` path parameter — and `$push`es
the `:MovieID` onto its FavoriteMovies. -/
def addFavorite (store : Store) (req : FavRequest) : Store × Response :=
  let r := findOneAndUpdate store req.tokenUsername (pushFavorite req.pathMovieID)
  match r.2 with
  | some u => (r.1, ⟨200, ResBody.jsonUser u⟩)
  | none => (r.1, ⟨200, ResBody.jsonNull⟩)

/-- DELETE /users/:Username/movies/:MovieID (part_000 lines 320-340):
selects the target document by the `:Username` path parameter and
`$pull`s the `:MovieID` from its FavoriteMovies. -/
def deleteFavorite (store : Store) (req : FavRequest) : Store × Response :=
  let r := findOneAndUpdate store req.pathUsername (pullFavorite req.pathMovieID)
  match r.2 with
  | some u => (r.1, ⟨200, ResBody.jsonUser u⟩)
  | none => (r.1, ⟨200, ResBody.jsonNull⟩)

/-- DELETE /users/:Username (part_000 lines 351-368): removes the
document matching the `:Username` path parameter; 200 "was deleted."
when one existed, 400 "was not found" otherwise. -/
def deleteUser (store : Store) (pathUsername : String) : Store × Response :=
  let r := findOneAndRemove store pathUsername
  match r.2 with
  | some _ => (r.1, ⟨200, ResBody.text (pathUsername ++ " was deleted.")⟩)
  | none => (r.1, ⟨400, ResBody.text (pathUsername ++ " was not found")⟩)

/-- The `.catch` / error-callback branch every handler attaches to its
store call (part_000 lines 199-208, 255-257, 286-288, 331-333, 363-366):
responds 500 with `"Error: " + err`, the stringified store error. -/
def catchStoreError (err : String) : Response :=
  ⟨500, ResBody.text ("Error: " ++ err)⟩

/-! ### Lemmas about the store primitives -/

theorem findOneUser_eq_none_iff (store : Store) (uname : String) :
    findOneUser store uname = none ↔ ∀ u ∈ store, u.Username ≠ uname := by
  simp [findOneUser, List.find?_eq_none]

theorem findOneAndUpdate_snd (store : Store) (uname : String) (f : User → User) :
    (findOneAndUpdate store uname f).2 = (findOneUser store uname).map f := by
  induction store with
  | nil => rfl
  | cons u rest ih =>
    unfold findOneAndUpdate findOneUser
    cases h : u.Username == uname <;> simp [List.find?_cons, h]
    simpa [findOneUser] using ih

theorem findOneAndUpdate_of_none (store : Store) (uname : String) (f : User → User)
    (h : findOneUser store uname = none) :
    findOneAndUpdate store uname f = (store, none) := by
  induction store with
  | nil => rfl
  | cons u rest ih =>
    unfold findOneUser at h
    rw [List.find?_cons] at h
    cases hh : u.Username == uname
    · rw [hh] at h
      unfold findOneAndUpdate
      rw [hh]
      simp [ih h]
    · rw [hh] at h
      simp at h

theorem findOneUser_findOneAndUpdate (store : Store) (uname : String)
    (f : User → User) (hf : ∀ v, (f v).Username = v.Username) :
    findOneUser (findOneAndUpdate store uname f).1 uname =
      (findOneUser store uname).map f := by
  induction store with
  | nil => rfl
  | cons u rest ih =>
    unfold findOneAndUpdate findOneUser
    cases h : u.Username == uname
    · simp only [h, Bool.false_eq_true, if_false, List.find?_cons, hf, h]
      simpa [findOneUser] using ih
    · simp [h, List.find?_cons, hf]

theorem findOneAndUpdate_fix (store : Store) (uname : String) (f : User → User)
    (u : User) (hu : findOneUser store uname = some u) (hfix : f u = u) :
    findOneAndUpdate store uname f = (store, some u) := by
  induction store with
  | nil => simp [findOneUser] at hu
  | cons v rest ih =>
    unfold findOneUser at hu
    rw [List.find?_cons] at hu
    unfold findOneAndUpdate
    cases h : v.Username == uname
    · rw [h] at hu
      simp only [Bool.false_eq_true, if_false]
      have := ih (by simpa [findOneUser] using hu)
      rw [this]
    · rw [h] at hu
      simp only [Option.some.injEq] at hu
      subst hu
      simp [h, hfix]

theorem findOneAndRemove_snd (store : Store) (uname : String) :
    (findOneAndRemove store uname).2 = findOneUser store uname := by
  induction store with
  | nil => rfl
  | cons u rest ih =>
    unfold findOneAndRemove findOneUser
    cases h : u.Username == uname <;> simp [List.find?_cons, h]
    simpa [findOneUser] using ih

theorem findOneAndRemove_of_none (store : Store) (uname : String)
    (h : findOneUser store uname = none) :
    findOneAndRemove store uname = (store, none) := by
  induction store with
  | nil => rfl
  | cons u rest ih =>
    unfold findOneUser at h
    rw [List.find?_cons] at h
    cases hh : u.Username == uname
    · rw [hh] at h
      unfold findOneAndRemove
      rw [hh]
      simp [ih h]
    · rw [hh] at h
      simp at h

theorem findOneUser_findOneAndRemove (store : Store) (uname : String) (u : User)
    (hnodup : (store.map User.Username).Nodup)
    (hu : findOneUser store uname = some u) :
    findOneUser (findOneAndRemove store uname).1 uname = none := by
  induction store with
  | nil => simp [findOneUser] at hu
  | cons v rest ih =>
    rw [List.map_cons, List.nodup_cons] at hnodup
    unfold findOneUser at hu
    rw [List.find?_cons] at hu
    unfold findOneAndRemove
    cases h : v.Username == uname
    · rw [h] at hu
      simp only [Bool.false_eq_true, if_false]
      unfold findOneUser
      rw [List.find?_cons, h]
      exact ih hnodup.2 (by simpa [findOneUser] using hu)
    · have hvu : v.Username = uname := by
        simpa using h
      rw [if_pos rfl]
      rw [findOneUser_eq_none_iff]
      intro w hw hww
      apply hnodup.1
      rw [hvu, ← hww]
      exact List.mem_map_of_mem User.Username hw

/-! ### Claims -/

/-- C1 (counterexample): addFavorite is not idempotent. Starting from a
user with an empty favorites list, one add of "m42" yields ["m42"] but a
second add of the same "m42" yields ["m42", "m42"]: a different store,
with a duplicate identifier, so a duplicate add is not a no-op. -/
theorem C1_counterexample :
    (addFavorite [⟨"alice", "pw", "a@x.io", none, []⟩]
        ⟨"alice", "m42", "alice"⟩).1 =
      [⟨"alice", "pw", "a@x.io", none, ["m42"]⟩] ∧
    (addFavorite (addFavorite [⟨"alice", "pw", "a@x.io", none, []⟩]
          ⟨"alice", "m42", "alice"⟩).1
        ⟨"alice", "m42", "alice"⟩).1 =
      [⟨"alice", "pw", "a@x.io", none, ["m42", "m42"]⟩] ∧
    (addFavorite (addFavorite [⟨"alice", "pw", "a@x.io", none, []⟩]
          ⟨"alice", "m42", "alice"⟩).1
        ⟨"alice", "m42", "alice"⟩).1 ≠
      (addFavorite [⟨"alice", "pw", "a@x.io", none, []⟩]
        ⟨"alice", "m42", "alice"⟩).1 ∧
    ¬ (["m42", "m42"] : List String).Nodup := by
  exact ⟨by decide, by decide, by decide, by decide⟩

/-- C1 (amended): addFavorite `$push`es unconditionally: whenever the
token's user is found, the response is 200 with the record whose
FavoriteMovies has the movieId appended, and a second application
appends a second occurrence (so a duplicate add is answered 200, is not
an error, but is not a no-op either). -/
theorem C1_addFavorite_push_appends :
    ∀ (store : Store) (req : FavRequest) (u : User),
      findOneUser store req.tokenUsername = some u →
      (addFavorite store req).2 =
        ⟨200, ResBody.jsonUser
          { u with FavoriteMovies := u.FavoriteMovies ++ [req.pathMovieID] }⟩ ∧
      (addFavorite (addFavorite store req).1 req).2 =
        ⟨200, ResBody.jsonUser
          { u with FavoriteMovies :=
              u.FavoriteMovies ++ [req.pathMovieID, req.pathMovieID] }⟩ := by
  intro store req u hu
  rcases hfu1 : findOneAndUpdate store req.tokenUsername (pushFavorite req.pathMovieID)
    with ⟨s1, r1⟩
  have h1 : r1 = some (pushFavorite req.pathMovieID u) := by
    have hs := findOneAndUpdate_snd store req.tokenUsername (pushFavorite req.pathMovieID)
    rw [hfu1, hu] at hs
    exact hs
  subst h1
  have hadd1 : addFavorite store req =
      (s1, ⟨200, ResBody.jsonUser (pushFavorite req.pathMovieID u)⟩) := by
    unfold addFavorite
    rw [hfu1]
  have hu1 : findOneUser s1 req.tokenUsername =
      some (pushFavorite req.pathMovieID u) := by
    have hs := findOneUser_findOneAndUpdate store req.tokenUsername
      (pushFavorite req.pathMovieID) (fun v => rfl)
    rw [hfu1, hu] at hs
    exact hs
  rcases hfu2 : findOneAndUpdate s1 req.tokenUsername (pushFavorite req.pathMovieID)
    with ⟨s2, r2⟩
  have h2 : r2 = some (pushFavorite req.pathMovieID (pushFavorite req.pathMovieID u)) := by
    have hs := findOneAndUpdate_snd s1 req.tokenUsername (pushFavorite req.pathMovieID)
    rw [hfu2, hu1] at hs
    exact hs
  subst h2
  have hadd2 : addFavorite s1 req =
      (s2, ⟨200, ResBody.jsonUser
        (pushFavorite req.pathMovieID (pushFavorite req.pathMovieID u))⟩) := by
    unfold addFavorite
    rw [hfu2]
  constructor
  · rw [hadd1]
    rfl
  · rw [hadd1]
    show (addFavorite s1 req).2 = _
    rw [hadd2]
    simp [pushFavorite, List.append_assoc]

/-- C1 (witness): the amended theorem applied at a one-user store. -/
theorem C1_witness :
    (addFavorite [⟨"alice", "pw", "a@x.io", none, []⟩]
        ⟨"alice", "m42", "alice"⟩).2 =
      ⟨200, ResBody.jsonUser ⟨"alice", "pw", "a@x.io", none, ["m42"]⟩⟩ ∧
    (addFavorite (addFavorite [⟨"alice", "pw", "a@x.io", none, []⟩]
          ⟨"alice", "m42", "alice"⟩).1
        ⟨"alice", "m42", "alice"⟩).2 =
      ⟨200, ResBody.jsonUser ⟨"alice", "pw", "a@x.io", none, ["m42", "m42"]⟩⟩ :=
  C1_addFavorite_push_appends [⟨"alice", "pw", "a@x.io", none, []⟩]
    ⟨"alice", "m42", "alice"⟩ ⟨"alice", "pw", "a@x.io", none, []⟩ (by decide)

/-- C2 (code bug): PUT /users/:Username computes the salted hash of the
submitted password but its `$set` writes the raw `req.body.Password`:
after updating alice's password to "newsecret", the stored Password
field is the plaintext "newsecret", which is not the salted hash. -/
theorem C2_updateUser_stores_raw_password :
    (updateUser (fun _ => true) [⟨"alice", hashPassword "old", "a@x.io", none, []⟩]
        "alice" ⟨"alice", "newsecret", "a@x.io", none⟩).1 =
      [⟨"alice", "newsecret", "a@x.io", none, []⟩] ∧
    hashPassword "newsecret" ≠ "newsecret" := by
  exact ⟨by decide, by decide⟩

/-- C3: addFavorite selects its target record by the token's resolved
identity (`req.user.Username`) and ignores the `:Username` path
parameter, while deleteFavorite selects by the path parameter and
ignores the token identity; on a store holding "alice" and "bobby" and a
request whose path names "alice" but whose token resolved to "bobby",
addFavorite mutates bobby's record while deleteFavorite mutates
alice's. -/
theorem C3_favorites_target_selection :
    (∀ (store : Store) (p p' m t : String),
      addFavorite store ⟨p, m, t⟩ = addFavorite store ⟨p', m, t⟩) ∧
    (∀ (store : Store) (p m t t' : String),
      deleteFavorite store ⟨p, m, t⟩ = deleteFavorite store ⟨p, m, t'⟩) ∧
    (addFavorite
        [⟨"alice", "pw", "a@x.io", none, ["m42"]⟩, ⟨"bobby", "pw", "b@x.io", none, []⟩]
        ⟨"alice", "m42", "bobby"⟩).1 =
      [⟨"alice", "pw", "a@x.io", none, ["m42"]⟩,
       ⟨"bobby", "pw", "b@x.io", none, ["m42"]⟩] ∧
    (deleteFavorite
        [⟨"alice", "pw", "a@x.io", none, ["m42"]⟩, ⟨"bobby", "pw", "b@x.io", none, []⟩]
        ⟨"alice", "m42", "bobby"⟩).1 =
      [⟨"alice", "pw", "a@x.io", none, []⟩, ⟨"bobby", "pw", "b@x.io", none, []⟩] := by
  exact ⟨fun store p p' m t => rfl, fun store p m t t' => rfl, by decide, by decide⟩

/-- C4 (counterexample): the 201 response of POST /users is the full
created document, Password hash included: creating "alice1" answers 201
with a record whose Password field is the (nonempty) salted hash, the
same value that was persisted — the hash is neither omitted nor
redacted. -/
theorem C4_counterexample :
    addUser (fun _ => true) [] ⟨"alice1", "Secr3t", "a@x.io", none⟩ =
      ([⟨"alice1", hashPassword "Secr3t", "a@x.io", none, []⟩],
        ⟨201, ResBody.jsonUser ⟨"alice1", hashPassword "Secr3t", "a@x.io", none, []⟩⟩) ∧
    hashPassword "Secr3t" ≠ "" ∧
    hashPassword "Secr3t" ≠ "Secr3t" := by
  exact ⟨by decide, by decide, by decide⟩

/-- C4 (amended): every successful createUser answers 201 with the full
created record, whose Password field holds the salted hash of the
supplied password; the hash appears in the outward-facing result rather
than being omitted or redacted. -/
theorem C4_addUser_response_contains_hash :
    ∀ (isEmailValid : String → Bool) (store : Store) (b : UserBody),
      validateUserBody isEmailValid b = [] →
      findOneUser store b.Username = none →
      addUser isEmailValid store b =
        (store ++ [createdUser b], ⟨201, ResBody.jsonUser (createdUser b)⟩) ∧
      (createdUser b).Password = hashPassword b.Password := by
  intro isEmailValid store b hv hf
  refine ⟨?_, rfl⟩
  unfold addUser
  rw [hv, hf]
  rfl

/-- C4 (witness): the amended theorem applied at the empty store. -/
theorem C4_witness :
    addUser (fun _ => true) [] ⟨"alice1", "Secr3t", "a@x.io", none⟩ =
      ([] ++ [createdUser ⟨"alice1", "Secr3t", "a@x.io", none⟩],
        ⟨201, ResBody.jsonUser (createdUser ⟨"alice1", "Secr3t", "a@x.io", none⟩)⟩) ∧
    (createdUser ⟨"alice1", "Secr3t", "a@x.io", none⟩).Password =
      hashPassword "Secr3t" :=
  C4_addUser_response_contains_hash (fun _ => true) []
    ⟨"alice1", "Secr3t", "a@x.io", none⟩ (by decide) rfl

/-- C5 (counterexample): PUT /users/:Username with valid fields whose
target username matches no record reports success — status 200 with
JSON null — instead of failing with NotFound. -/
theorem C5_counterexample :
    updateUser (fun _ => true) [⟨"alice", "pw", "a@x.io", none, []⟩]
        "bobby" ⟨"bobby", "pw123", "b@x.io", none⟩ =
      ([⟨"alice", "pw", "a@x.io", none, []⟩], ⟨200, ResBody.jsonNull⟩) ∧
    (200 : Nat) ≠ 400 := by
  exact ⟨by decide, by decide⟩

/-- C5 (amended): updateUser with valid input and a nonexistent target
leaves the store unchanged and responds 200 with JSON null (mongoose
findOneAndUpdate returned no document and the handler res.json's it);
it does not fail with NotFound. -/
theorem C5_updateUser_missing_returns_null :
    ∀ (isEmailValid : String → Bool) (store : Store) (uname : String) (b : UserBody),
      validateUserBody isEmailValid b = [] →
      findOneUser store uname = none →
      updateUser isEmailValid store uname b = (store, ⟨200, ResBody.jsonNull⟩) := by
  intro isEmailValid store uname b hv hf
  unfold updateUser
  rw [hv, findOneAndUpdate_of_none store uname (setUserFields b) hf]
  rfl

/-- C5 (witness): the amended theorem applied at a store without the
target user. -/
theorem C5_witness :
    updateUser (fun _ => true) [⟨"alice", "pw", "a@x.io", none, []⟩]
        "bobby" ⟨"bobby", "pw123", "b@x.io", none⟩ =
      ([⟨"alice", "pw", "a@x.io", none, []⟩], ⟨200, ResBody.jsonNull⟩) :=
  C5_updateUser_missing_returns_null (fun _ => true)
    [⟨"alice", "pw", "a@x.io", none, []⟩] "bobby"
    ⟨"bobby", "pw123", "b@x.io", none⟩ (by decide) (by decide)

/-- C6 (counterexample): the route-boundary catch branch embeds the raw
store error in the client response: a driver error is answered as
"Error: " followed by the driver's own message, and two different
internal errors produce two different client-visible responses, so the
message is not generic. -/
theorem C6_counterexample :
    catchStoreError "MongoServerError: E11000 duplicate key" =
      ⟨500, ResBody.text ("Error: " ++ "MongoServerError: E11000 duplicate key")⟩ ∧
    catchStoreError "MongoServerError: E11000 duplicate key" ≠
      catchStoreError "MongoNetworkError: connect ECONNREFUSED" := by
  exact ⟨rfl, by decide⟩

/-- C6 (amended): every store-layer failure is caught at the route
boundary and translated to status 500, but the response body is
"Error: " followed by the stringified internal error: distinct internal
errors yield distinct client-visible responses, so raw internal error
detail is included rather than a generic message. -/
theorem C6_catch_translates_but_leaks :
    ∀ e1 e2 : String, e1 ≠ e2 →
      (catchStoreError e1).status = 500 ∧
      (catchStoreError e1).body = ResBody.text ("Error: " ++ e1) ∧
      catchStoreError e1 ≠ catchStoreError e2 := by
  intro e1 e2 hne
  refine ⟨rfl, rfl, ?_⟩
  intro h
  apply hne
  have hb : ResBody.text ("Error: " ++ e1) = ResBody.text ("Error: " ++ e2) :=
    congrArg Response.body h
  have hs : ("Error: " ++ e1) = ("Error: " ++ e2) := by
    injection hb
  have hd := congrArg String.data hs
  rw [String.data_append, String.data_append] at hd
  exact String.ext (List.append_cancel_left hd)

/-- C6 (witness): the amended theorem applied at two distinct errors. -/
theorem C6_witness :
    (catchStoreError "boom").status = 500 ∧
    (catchStoreError "boom").body = ResBody.text ("Error: " ++ "boom") ∧
    catchStoreError "boom" ≠ catchStoreError "crash" :=
  C6_catch_translates_but_leaks "boom" "crash" (by decide)

/-- C7: the shared validation chain of POST /users and PUT
/users/:Username enumerates every violated check: each violated
precondition (username length, username alphanumeric, password
nonempty, email format) contributes its own entry to `errors.array()`,
and whenever at least one check fails both handlers answer 422 with the
full structured error array. -/
theorem C7_validation_enumerates_every_field :
    ∀ (isEmailValid : String → Bool) (store : Store) (uname : String) (b : UserBody),
      (decide (5 ≤ b.Username.length) = false →
        (⟨"Username", "Username is required"⟩ : FieldError) ∈
          validateUserBody isEmailValid b) ∧
      ((!b.Username.isEmpty && b.Username.data.all Char.isAlphanum) = false →
        (⟨"Username",
            "Username contains non alphanumeric characters - not allowed."⟩ : FieldError) ∈
          validateUserBody isEmailValid b) ∧
      ((!b.Password.isEmpty) = false →
        (⟨"Password", "Password is required"⟩ : FieldError) ∈
          validateUserBody isEmailValid b) ∧
      (isEmailValid b.Email = false →
        (⟨"Email", "Email does not appear to be valid"⟩ : FieldError) ∈
          validateUserBody isEmailValid b) ∧
      (validateUserBody isEmailValid b ≠ [] →
        addUser isEmailValid store b =
          (store, ⟨422, ResBody.jsonErrors (validateUserBody isEmailValid b)⟩) ∧
        updateUser isEmailValid store uname b =
          (store, ⟨422, ResBody.jsonErrors (validateUserBody isEmailValid b)⟩)) := by
  intro isEmailValid store uname b
  refine ⟨?_, ?_, ?_, ?_, ?_⟩
  · intro h
    simp [validateUserBody, checkField, h]
  · intro h
    simp [validateUserBody, checkField, h]
  · intro h
    simp [validateUserBody, checkField, h]
  · intro h
    simp [validateUserBody, checkField, h]
  · intro h
    rcases he : validateUserBody isEmailValid b with _ | ⟨a, l⟩
    · exact absurd he h
    · constructor
      · unfold addUser
        rw [he]
        rfl
      · unfold updateUser
        rw [he]
        rfl

/-- C7 (witness): the theorem applied at a body violating all four
checks: a 2-character non-alphanumeric username, an empty password and
an invalid email. -/
theorem C7_witness :
    ((⟨"Username", "Username is required"⟩ : FieldError) ∈
      validateUserBody (fun _ => false) ⟨"a!", "", "x", none⟩) ∧
    ((⟨"Username",
        "Username contains non alphanumeric characters - not allowed."⟩ : FieldError) ∈
      validateUserBody (fun _ => false) ⟨"a!", "", "x", none⟩) ∧
    ((⟨"Password", "Password is required"⟩ : FieldError) ∈
      validateUserBody (fun _ => false) ⟨"a!", "", "x", none⟩) ∧
    ((⟨"Email", "Email does not appear to be valid"⟩ : FieldError) ∈
      validateUserBody (fun _ => false) ⟨"a!", "", "x", none⟩) ∧
    (addUser (fun _ => false) [] ⟨"a!", "", "x", none⟩ =
      ([], ⟨422, ResBody.jsonErrors
        (validateUserBody (fun _ => false) ⟨"a!", "", "x", none⟩)⟩) ∧
     updateUser (fun _ => false) [] "someone" ⟨"a!", "", "x", none⟩ =
      ([], ⟨422, ResBody.jsonErrors
        (validateUserBody (fun _ => false) ⟨"a!", "", "x", none⟩)⟩)) := by
  have h := C7_validation_enumerates_every_field (fun _ => false) [] "someone"
    ⟨"a!", "", "x", none⟩
  exact ⟨h.1 (by decide), h.2.1 (by decide), h.2.2.1 (by decide),
    h.2.2.2.1 rfl, h.2.2.2.2 (by decide)⟩

/-- C8: DELETE /users/:Username on a missing user answers 400
"was not found" (a client-correctable failure, not a crash), and on a
store with unique usernames deleting twice in a row is idempotent at the
API-observable level: the first call answers 200 "was deleted." and
removes the record, the second answers 400 "was not found". -/
theorem C8_deleteUser_notfound_and_idempotent :
    ∀ (store : Store) (uname : String),
      (findOneUser store uname = none →
        deleteUser store uname =
          (store, ⟨400, ResBody.text (uname ++ " was not found")⟩)) ∧
      (∀ u : User, (store.map User.Username).Nodup →
        findOneUser store uname = some u →
        (deleteUser store uname).2 =
            ⟨200, ResBody.text (uname ++ " was deleted.")⟩ ∧
        deleteUser (deleteUser store uname).1 uname =
          ((deleteUser store uname).1,
            ⟨400, ResBody.text (uname ++ " was not found")⟩)) := by
  intro store uname
  constructor
  · intro h
    unfold deleteUser
    rw [findOneAndRemove_of_none store uname h]
  · intro u hnd hu
    rcases hfr : findOneAndRemove store uname with ⟨store', r⟩
    have h2 : r = some u := by
      rw [← hu, ← findOneAndRemove_snd, hfr]
    subst h2
    have hnone : findOneUser store' uname = none := by
      have hs := findOneUser_findOneAndRemove store uname u hnd hu
      rw [hfr] at hs
      exact hs
    have hdel : deleteUser store uname =
        (store', ⟨200, ResBody.text (uname ++ " was deleted.")⟩) := by
      unfold deleteUser
      rw [hfr]
    refine ⟨by rw [hdel], ?_⟩
    rw [hdel]
    show deleteUser store' uname = _
    unfold deleteUser
    rw [findOneAndRemove_of_none store' uname hnone]

/-- C8 (witness): the theorem applied at the empty store (missing user)
and at a one-user store (delete twice in a row). -/
theorem C8_witness :
    deleteUser [] "ghost" =
      ([], ⟨400, ResBody.text ("ghost" ++ " was not found")⟩) ∧
    ((deleteUser [⟨"alice", "pw", "a@x.io", none, []⟩] "alice").2 =
        ⟨200, ResBody.text ("alice" ++ " was deleted.")⟩ ∧
      deleteUser (deleteUser [⟨"alice", "pw", "a@x.io", none, []⟩] "alice").1 "alice" =
        ((deleteUser [⟨"alice", "pw", "a@x.io", none, []⟩] "alice").1,
          ⟨400, ResBody.text ("alice" ++ " was not found")⟩)) :=
  ⟨(C8_deleteUser_notfound_and_idempotent [] "ghost").1 rfl,
    (C8_deleteUser_notfound_and_idempotent
        [⟨"alice", "pw", "a@x.io", none, []⟩] "alice").2
      ⟨"alice", "pw", "a@x.io", none, []⟩ (by decide) (by decide)⟩

/-- C9: DELETE /users/:Username/movies/:MovieID with a movieId not in
the target user's FavoriteMovies is a no-op: the store is unchanged and
the handler answers 200 with the unchanged user record, exactly the
shape it answers when a member was removed. -/
theorem C9_removeFavorite_nonmember_noop :
    ∀ (store : Store) (req : FavRequest) (u : User),
      findOneUser store req.pathUsername = some u →
      req.pathMovieID ∉ u.FavoriteMovies →
      deleteFavorite store req = (store, ⟨200, ResBody.jsonUser u⟩) := by
  intro store req u hu hmem
  have hfix : pullFavorite req.pathMovieID u = u := by
    cases u with
    | mk un pw em bd fav =>
      unfold pullFavorite
      have hf : fav.filter (fun m => m != req.pathMovieID) = fav := by
        apply List.filter_eq_self.mpr
        intro a ha
        simp only [bne_iff_ne, ne_eq, decide_eq_true_eq]
        intro hh
        exact hmem (hh ▸ ha)
      simp only at hf ⊢
      rw [hf]
  unfold deleteFavorite
  rw [findOneAndUpdate_fix store req.pathUsername (pullFavorite req.pathMovieID)
    u hu hfix]

/-- C9 (witness): the theorem applied at a user whose favorites hold
"m1" but not the removed "m42". -/
theorem C9_witness :
    deleteFavorite [⟨"alice", "pw", "a@x.io", none, ["m1"]⟩]
        ⟨"alice", "m42", "alice"⟩ =
      ([⟨"alice", "pw", "a@x.io", none, ["m1"]⟩],
        ⟨200, ResBody.jsonUser ⟨"alice", "pw", "a@x.io", none, ["m1"]⟩⟩) :=
  C9_removeFavorite_nonmember_noop [⟨"alice", "pw", "a@x.io", none, ["m1"]⟩]
    ⟨"alice", "m42", "alice"⟩ ⟨"alice", "pw", "a@x.io", none, ["m1"]⟩
    (by decide) (by decide)

/-- C10: the `$pull` of DELETE /users/:Username/movies/:MovieID removes
every occurrence of the movieId: when the target user is found, the
handler answers 200 with the `$pull`ed record, the store afterwards
holds that record under the same username, the movieId occurs zero
times in its FavoriteMovies, and all other fields are unchanged. -/
theorem C10_removeFavorite_removes_all_occurrences :
    ∀ (store : Store) (req : FavRequest) (u : User),
      findOneUser store req.pathUsername = some u →
      (deleteFavorite store req).2 =
          ⟨200, ResBody.jsonUser (pullFavorite req.pathMovieID u)⟩ ∧
      findOneUser (deleteFavorite store req).1 req.pathUsername =
          some (pullFavorite req.pathMovieID u) ∧
      (pullFavorite req.pathMovieID u).FavoriteMovies.count req.pathMovieID = 0 ∧
      req.pathMovieID ∉ (pullFavorite req.pathMovieID u).FavoriteMovies ∧
      (pullFavorite req.pathMovieID u).Username = u.Username ∧
      (pullFavorite req.pathMovieID u).Password = u.Password ∧
      (pullFavorite req.pathMovieID u).Email = u.Email ∧
      (pullFavorite req.pathMovieID u).Birthday = u.Birthday := by
  intro store req u hu
  rcases hfu : findOneAndUpdate store req.pathUsername (pullFavorite req.pathMovieID)
    with ⟨store', r⟩
  have h2 : r = some (pullFavorite req.pathMovieID u) := by
    have hs := findOneAndUpdate_snd store req.pathUsername (pullFavorite req.pathMovieID)
    rw [hfu, hu] at hs
    exact hs
  subst h2
  have hdel : deleteFavorite store req =
      (store', ⟨200, ResBody.jsonUser (pullFavorite req.pathMovieID u)⟩) := by
    unfold deleteFavorite
    rw [hfu]
  have hnm : req.pathMovieID ∉ (pullFavorite req.pathMovieID u).FavoriteMovies := by
    simp [pullFavorite]
  refine ⟨by rw [hdel], ?_, ?_, hnm, rfl, rfl, rfl, rfl⟩
  · rw [hdel]
    have hs := findOneUser_findOneAndUpdate store req.pathUsername
      (pullFavorite req.pathMovieID) (fun v => rfl)
    rw [hfu, hu] at hs
    exact hs
  · exact List.count_eq_zero.mpr hnm

/-- C10 (witness): the theorem applied at a user whose favorites hold
"m42" twice: both occurrences are removed, the other field "m1" and all
non-favorites fields survive. -/
theorem C10_witness :
    (deleteFavorite [⟨"alice", "pw", "a@x.io", none, ["m42", "m1", "m42"]⟩]
        ⟨"alice", "m42", "alice"⟩).2 =
      ⟨200, ResBody.jsonUser
        (pullFavorite "m42" ⟨"alice", "pw", "a@x.io", none, ["m42", "m1", "m42"]⟩)⟩ ∧
    findOneUser (deleteFavorite [⟨"alice", "pw", "a@x.io", none, ["m42", "m1", "m42"]⟩]
        ⟨"alice", "m42", "alice"⟩).1 "alice" =
      some (pullFavorite "m42" ⟨"alice", "pw", "a@x.io", none, ["m42", "m1", "m42"]⟩) ∧
    (pullFavorite "m42"
        ⟨"alice", "pw", "a@x.io", none, ["m42", "m1", "m42"]⟩).FavoriteMovies.count "m42" = 0 ∧
    "m42" ∉ (pullFavorite "m42"
        ⟨"alice", "pw", "a@x.io", none, ["m42", "m1", "m42"]⟩).FavoriteMovies ∧
    (pullFavorite "m42"
        ⟨"alice", "pw", "a@x.io", none, ["m42", "m1", "m42"]⟩).Username = "alice" ∧
    (pullFavorite "m42"
        ⟨"alice", "pw", "a@x.io", none, ["m42", "m1", "m42"]⟩).Password = "pw" ∧
    (pullFavorite "m42"
        ⟨"alice", "pw", "a@x.io", none, ["m42", "m1", "m42"]⟩).Email = "a@x.io" ∧
    (pullFavorite "m42"
        ⟨"alice", "pw", "a@x.io", none, ["m42", "m1", "m42"]⟩).Birthday = none :=
  C10_removeFavorite_removes_all_occurrences
    [⟨"alice", "pw", "a@x.io", none, ["m42", "m1", "m42"]⟩]
    ⟨"alice", "m42", "alice"⟩
    ⟨"alice", "pw", "a@x.io", none, ["m42", "m1", "m42"]⟩ (by decide)

end MovieApi
